import Mathlib

/-!
Shallow embedding of `lib/sbstore.js` from socket.io-servicebus: the
`ServiceBusStore` object (subscriber registry, publish / subscribe /
unsubscribe / destroy / receiveMessage, construction and listener hookup).

JavaScript values are modelled as follows: message arguments are opaque
values (`Arg := Nat`), consumer callbacks are compared only by identity in
the source, so a consumer is an opaque identity token (`Consumer := Nat`),
event names are strings.  The store's `this.subscribers` object is an
association list from name to ordered consumer sequence, distinguishing a
missing entry from an entry holding the empty sequence (JavaScript objects
make the same distinction).  Local `emit` calls and transport `send` calls
are recorded as explicit traces.  A thrown JavaScript error is an
`Except.error`.
-/

namespace SBStore

/-- A message argument (opaque JavaScript value). -/
abbrev Arg := Nat

/-- A consumer callback.  The source compares consumers only with `!==`
(identity), so a consumer is an opaque identity token. -/
abbrev Consumer := Nat

/-- Name of a message / event. -/
abbrev EventName := String

/-- A local event emitted by the store via `this.emit(...)` on itself
(the store inherits from `EventEmitter` through `io.Store`). -/
inductive LocalEvent where
  | publish (name : EventName) (args : List Arg)
  | subscribe (name : EventName) (c : Consumer)
  | unsubscribe (name : EventName) (c : Consumer)
  | received (sourceNodeId : String) (name : EventName) (args : List Arg)
deriving DecidableEq, Repr

/-- The `this.subscribers` object: association list from event name to the
ordered sequence of consumers registered for it.  A key can be present with
an empty list, as after `unsubscribe`, which is distinct from being absent. -/
abbrev Registry := List (EventName × List Consumer)

/-- `this.subscribers[name]`: value of the first entry for `name`, if any. -/
def Registry.lookup (r : Registry) (name : EventName) : Option (List Consumer) :=
  match r with
  | [] => none
  | (n, v) :: rest => if n = name then some v else Registry.lookup rest name

/-- `this.subscribers[name] = v`: overwrite the entry for `name`, creating
it if absent. -/
def Registry.set (r : Registry) (name : EventName) (v : List Consumer) : Registry :=
  match r with
  | [] => [(name, v)]
  | (n, w) :: rest =>
    if n = name then (n, v) :: rest else (n, w) :: Registry.set rest name v

/-- `this.subscribers[name] || []`. -/
def Registry.getOrEmpty (r : Registry) (name : EventName) : List Consumer :=
  (Registry.lookup r name).getD []

/-- The raw service bus service object: either built by
`azure.createServiceBusService(connectionString)` or supplied directly in
the options as `serviceBusService`. -/
inductive SBService where
  | fromConnectionString (connectionString : String)
  | supplied (id : Nat)
deriving DecidableEq, Repr

/-- The batching transport `this.sb` (a `BatchInterface` wrapping a
`ServiceBusInterface` built from `createOptions`), with its observable
effects: the trace of `send` calls and the polling-session state toggled by
`start` / `stop`. -/
structure SBTransport where
  nodeId : String
  topic : Option String
  sbSubscription : Option String
  serviceBusService : SBService
  sent : List (EventName × List Arg)
  started : Bool
  stopped : Bool
deriving DecidableEq, Repr

/-- The store state: `this.nodeId`, `this.sb`, `this.subscribers`. -/
structure Store where
  nodeId : String
  sb : SBTransport
  subscribers : Registry
deriving DecidableEq, Repr

/-- A thrown JavaScript error. -/
inductive JsError where
  /-- `throw new Error(msg)`. -/
  | error (msg : String)
  /-- Evaluation of an identifier that is not bound in scope
  (`ReferenceError: name is not defined`). -/
  | referenceError (name : String)
deriving DecidableEq, Repr

/-- `ServiceBusStore.prototype.publish`: pushes one `send(name, args)` call
onto the transport and emits one local `publish` event with
`(name, ...args)`, synchronously on the calling context. -/
def Store.publish (s : Store) (name : EventName) (args : List Arg) :
    Store × List LocalEvent :=
  ({ s with sb := { s.sb with sent := s.sb.sent ++ [(name, args)] } },
   [LocalEvent.publish name args])

/-- `ServiceBusStore.prototype.subscribe`: appends `consumer` to
`this.subscribers[name] || []`, stores it back, and emits a local
`subscribe` event. -/
def Store.subscribe (s : Store) (name : EventName) (consumer : Consumer) :
    Store × List LocalEvent :=
  let subs := Registry.getOrEmpty s.subscribers name ++ [consumer]
  ({ s with subscribers := Registry.set s.subscribers name subs },
   [LocalEvent.subscribe name consumer])

/-- The callback passed to `Array.prototype.filter` in `unsubscribe`:
`function (item) { item !== consumer; }`.  The body evaluates
`item !== consumer` as an expression statement and discards it; the
function has no return statement, so it returns `undefined`, which `filter`
coerces to `false` for every element. -/
def unsubscribeKeeps (item consumer : Consumer) : Bool :=
  let _ := item != consumer
  false

/-- `ServiceBusStore.prototype.unsubscribe`: filters
`this.subscribers[name] || []` with the no-return callback
`unsubscribeKeeps`, stores the result back under `name`, and emits a local
`unsubscribe` event. -/
def Store.unsubscribe (s : Store) (name : EventName) (consumer : Consumer) :
    Store × List LocalEvent :=
  let subs := (Registry.getOrEmpty s.subscribers name).filter
    (fun item => unsubscribeKeeps item consumer)
  ({ s with subscribers := Registry.set s.subscribers name subs },
   [LocalEvent.unsubscribe name consumer])

/-- `ServiceBusStore.prototype.destroy`: its first statement is
`Store.prototype.destroy.call(this)`.  The identifier `Store` is not bound
in the module (the constructor is named `ServiceBusStore`, and the base
class is only accessible as `io.Store`), so this statement throws a
`ReferenceError` before `this.sb.stop()` or the registry reset runs. -/
def Store.destroy (_ : Store) : Except JsError Store :=
  Except.error (JsError.referenceError "Store")

/-- `ServiceBusStore.prototype.receiveMessage`: emits one local `received`
event with `(sourceNodeId, name, args)`; then, only when `sourceNodeId`
differs from `this.nodeId`, calls every consumer in
`this.subscribers[name] || []` in order with `args` as its argument list.
The returned trace records each consumer invocation as a
`(consumer, argument list)` pair, in call order. -/
def Store.receiveMessage (s : Store) (sourceNodeId : String) (name : EventName)
    (args : List Arg) : Store × List LocalEvent × List (Consumer × List Arg) :=
  let events := [LocalEvent.received sourceNodeId name args]
  if sourceNodeId ≠ s.nodeId then
    (s, events, (Registry.getOrEmpty s.subscribers name).map (fun sub => (sub, args)))
  else
    (s, events, [])

/-- A listener object supplied in `options.listeners`, identified by an
opaque token. -/
abbrev Listener := Nat

/-- The `listeners` option: absent, a single listener object, or an array
of listeners. -/
inductive ListenersOpt where
  | absent
  | single (l : Listener)
  | array (ls : List Listener)
deriving Repr

/-- Construction options (the `options` argument of the constructor),
with the fields the embedded code reads.  An `Option` field is `none` when
absent or falsy. -/
structure Options where
  serviceBusService : Option SBService
  connectionString : Option String
  nodeId : Option String
  topic : Option String
  sbSubscription : Option String
  listeners : ListenersOpt
deriving Repr

/-- A record of one call made on a listener during `hookupListeners`. -/
inductive HookCall where
  /-- `l.store(that)`: the listener's `store` hook called with the store
  instance under construction. -/
  | storeHook (l : Listener)
  /-- `l.sb(that.sb)`: the listener's `sb` hook called with the batching
  transport instance, captured here as the transport state at call time. -/
  | sbHook (l : Listener) (sb : SBTransport)
deriving DecidableEq, Repr

/-- The normalization at the top of `hookupListeners`:
`listeners = listeners || []` and wrapping a non-array in a one-element
array. -/
def normalizeListeners : ListenersOpt → List Listener
  | ListenersOpt.absent => []
  | ListenersOpt.single l => [l]
  | ListenersOpt.array ls => ls

/-- `ServiceBusStore.prototype.hookupListeners` on an already-normalized
array: for each listener in order, call `l.store(that)` then
`l.sb(that.sb)`.  Returns the trace of hook calls. -/
def hookupListeners (sb : SBTransport) (ls : List Listener) : List HookCall :=
  ls.flatMap (fun l => [HookCall.storeHook l, HookCall.sbHook l sb])

/-- `ServiceBusStore.prototype.createServiceBusInterface`: throws when both
or neither of `connectionString` / `serviceBusService` are supplied;
otherwise builds the raw service (from the connection string, or the one
supplied), assembles `createOptions`, and returns the batching transport
(`new BatchInterface(createOptions, new ServiceBusInterface(createOptions))`),
not yet started. -/
def createServiceBusInterface (nodeId : String) (options : Options) :
    Except JsError SBTransport :=
  match options.connectionString, options.serviceBusService with
  | some _, some _ =>
    Except.error (JsError.error
      "Should specify connection string or serviceBusService object, not both")
  | none, none =>
    Except.error (JsError.error
      "Must specify one of connectionString or serviceBusService in options")
  | some cs, none =>
    Except.ok { nodeId := nodeId, topic := options.topic,
                sbSubscription := options.sbSubscription,
                serviceBusService := SBService.fromConnectionString cs,
                sent := [], started := false, stopped := false }
  | none, some svc =>
    Except.ok { nodeId := nodeId, topic := options.topic,
                sbSubscription := options.sbSubscription,
                serviceBusService := svc,
                sent := [], started := false, stopped := false }

/-- The result of a successful construction: the store together with the
trace of listener hook calls made while building it. -/
structure Constructed where
  store : Store
  hookTrace : List HookCall
deriving Repr

/-- The `ServiceBusStore` constructor.  `freshUuid` stands for the value
`uuid()` would produce when `options.nodeId` is absent.  Sets
`this.nodeId`, builds `this.sb` via `createServiceBusInterface` (which may
throw), sets `this.subscribers = {}`, hooks up the listeners (passing the
transport in its not-yet-started state), wires `receiveMessage` to the
transport's `message` event, and finally calls `this.sb.start()`. -/
def construct (options : Options) (freshUuid : String) :
    Except JsError Constructed :=
  let nodeId := options.nodeId.getD freshUuid
  match createServiceBusInterface nodeId options with
  | Except.error e => Except.error e
  | Except.ok sb =>
    let hooks := hookupListeners sb (normalizeListeners options.listeners)
    Except.ok { store := { nodeId := nodeId, sb := { sb with started := true },
                           subscribers := [] },
                hookTrace := hooks }

/-- A sample transport used to instantiate theorems at concrete inputs. -/
def sampleSb : SBTransport :=
  { nodeId := "node-a", topic := none, sbSubscription := none,
    serviceBusService := SBService.supplied 0,
    sent := [], started := true, stopped := false }

/-- A sample store with node identity `"node-a"` and a given registry. -/
def sampleStore (subs : Registry) : Store :=
  { nodeId := "node-a", sb := sampleSb, subscribers := subs }

/-- Looking up a key just set finds the value that was set. -/
theorem Registry.lookup_set_self (r : Registry) (name : EventName)
    (v : List Consumer) :
    Registry.lookup (Registry.set r name v) name = some v := by
  induction r with
  | nil => simp [Registry.set, Registry.lookup]
  | cons hd tl ih =>
    obtain ⟨n, w⟩ := hd
    by_cases h : n = name <;> simp [Registry.set, Registry.lookup, h, ih]

/-- Setting one key leaves lookups of every other key unchanged. -/
theorem Registry.lookup_set_ne (r : Registry) (name m : EventName)
    (v : List Consumer) (h : m ≠ name) :
    Registry.lookup (Registry.set r name v) m = Registry.lookup r m := by
  induction r with
  | nil => simp [Registry.set, Registry.lookup, Ne.symm h]
  | cons hd tl ih =>
    obtain ⟨n, w⟩ := hd
    by_cases hn : n = name
    · subst hn
      simp [Registry.set, Registry.lookup, Ne.symm h]
    · simp [Registry.set, Registry.lookup, hn, ih]

/-- The no-return filter callback keeps no element at all. -/
theorem filter_unsubscribeKeeps (l : List Consumer) (c : Consumer) :
    l.filter (fun item => unsubscribeKeeps item c) = [] := by
  induction l with
  | nil => rfl
  | cons hd tl ih => simp [List.filter, unsubscribeKeeps, ih]

/-- Claim C1: false on the code.  The filter callback in `unsubscribe` has
no return statement, so it removes every consumer.  On the registry
`x -> [1, 2]`, `unsubscribe("x", 2)` leaves the entry for `"x"` empty; the
other registered consumer `1` is not left in place as the claim states. -/
theorem unsubscribe_empties_entry_at_failing_input :
    Store.unsubscribe (sampleStore [("x", [1, 2])]) "x" 2
      = (sampleStore [("x", [])], [LocalEvent.unsubscribe "x" 2])
    ∧ (Store.unsubscribe (sampleStore [("x", [1, 2])]) "x" 2).1.subscribers
      ≠ [("x", [1])] := by
  constructor
  · rfl
  · decide

/-- Claim C2: false on the code.  `destroy` begins with
`Store.prototype.destroy.call(this)`; `Store` is an unbound identifier in
the module, so a `ReferenceError` is thrown before the transport is
stopped or the registry cleared. -/
theorem destroy_throws_reference_error :
    Store.destroy (sampleStore [("x", [1])])
      = Except.error (JsError.referenceError "Store") := rfl

/-- Claim C3: a message whose `sourceNodeId` equals the store's own node
identity invokes no subscriber, regardless of the registry, yet emits
exactly one `received` event carrying `(sourceNodeId, name, args)`, and
leaves the store unchanged. -/
theorem receiveMessage_self_no_dispatch (s : Store) (name : EventName)
    (args : List Arg) :
    Store.receiveMessage s s.nodeId name args
      = (s, [LocalEvent.received s.nodeId name args], []) := by
  simp [Store.receiveMessage]

/-- Claim C4: a message from a different node invokes exactly the
consumers registered for its name, once each, in registration order, each
with the message's args as argument list, and no consumer under any other
name; it also emits exactly one `received` event. -/
theorem receiveMessage_other_node_dispatch (s : Store) (src : String)
    (name : EventName) (args : List Arg) (h : src ≠ s.nodeId) :
    Store.receiveMessage s src name args
      = (s, [LocalEvent.received src name args],
         (Registry.getOrEmpty s.subscribers name).map (fun c => (c, args))) := by
  simp [Store.receiveMessage, h]

/-- Witness for C4 at a concrete input: two consumers registered under
`"x"`, message from node `"node-b"` dispatches to both in order. -/
theorem receiveMessage_other_node_dispatch_witness :
    "node-b" ≠ (sampleStore [("x", [5, 7])]).nodeId ∧
    Store.receiveMessage (sampleStore [("x", [5, 7])]) "node-b" "x" [1, 2]
      = (sampleStore [("x", [5, 7])],
         [LocalEvent.received "node-b" "x" [1, 2]],
         [(5, [1, 2]), (7, [1, 2])]) :=
  ⟨by decide,
   by rw [receiveMessage_other_node_dispatch _ _ _ _ (by decide)]; rfl⟩

/-- Claim C5: supplying both of `connectionString` / `serviceBusService`,
or neither, makes construction fail synchronously with the corresponding
configuration error; no transport is built and no store (partial or
otherwise) is returned. -/
theorem construct_config_error (options : Options) (u : String)
    (h : options.connectionString.isSome = options.serviceBusService.isSome) :
    construct options u = Except.error (JsError.error
      (if options.connectionString.isSome then
        "Should specify connection string or serviceBusService object, not both"
      else
        "Must specify one of connectionString or serviceBusService in options")) := by
  obtain ⟨svc, cs, nid, top, sub, ls⟩ := options
  cases cs <;> cases svc <;> simp_all [construct, createServiceBusInterface]

/-- Options supplying neither a connection string nor a service object. -/
def emptyOptions : Options :=
  { serviceBusService := none, connectionString := none, nodeId := none,
    topic := none, sbSubscription := none, listeners := ListenersOpt.absent }

/-- Witness for C5 at a concrete input: no transport source supplied. -/
theorem construct_config_error_witness :
    emptyOptions.connectionString.isSome = emptyOptions.serviceBusService.isSome ∧
    construct emptyOptions "u" = Except.error (JsError.error
      "Must specify one of connectionString or serviceBusService in options") :=
  ⟨rfl, by have h := construct_config_error emptyOptions "u" rfl; simpa using h⟩

/-- Claim C6: `publish(name, ...args)` records exactly one transport
`send` carrying `name` and the ordered args, emits exactly one local
`publish` event carrying `(name, ...args)`, and touches nothing else in
the store. -/
theorem publish_sends_once_and_emits (s : Store) (name : EventName)
    (args : List Arg) :
    (s.publish name args).1.sb.sent = s.sb.sent ++ [(name, args)]
    ∧ (s.publish name args).2 = [LocalEvent.publish name args]
    ∧ (s.publish name args).1.subscribers = s.subscribers
    ∧ (s.publish name args).1.nodeId = s.nodeId :=
  ⟨rfl, rfl, rfl, rfl⟩

/-- Claim C7: `subscribe(name, consumer)` appends `consumer` at the end of
the entry for `name` (creating it if absent, no dedup by identity), leaves
every other entry unchanged, and emits one local `subscribe` event. -/
theorem subscribe_appends_and_emits (s : Store) (name : EventName)
    (c : Consumer) :
    Registry.lookup (s.subscribe name c).1.subscribers name
      = some (Registry.getOrEmpty s.subscribers name ++ [c])
    ∧ (∀ m, m ≠ name → Registry.lookup (s.subscribe name c).1.subscribers m
        = Registry.lookup s.subscribers m)
    ∧ (s.subscribe name c).2 = [LocalEvent.subscribe name c] := by
  refine ⟨?_, ?_, rfl⟩
  · simp [Store.subscribe, Registry.lookup_set_self]
  · intro m hm
    simp [Store.subscribe, Registry.lookup_set_ne _ _ _ _ hm]

/-- Witness for C7 at a concrete input: subscribing `2` under `"x"` on a
registry `x -> [1]` yields `x -> [1, 2]` and leaves `"y"` alone. -/
theorem subscribe_appends_and_emits_witness :
    Registry.lookup ((sampleStore [("x", [1])]).subscribe "x" 2).1.subscribers "x"
      = some [1, 2]
    ∧ Registry.lookup ((sampleStore [("x", [1])]).subscribe "x" 2).1.subscribers "y"
      = Registry.lookup (sampleStore [("x", [1])]).subscribers "y" :=
  ⟨by have h := (subscribe_appends_and_emits (sampleStore [("x", [1])]) "x" 2).1
      simpa using h,
   (subscribe_appends_and_emits (sampleStore [("x", [1])]) "x" 2).2.1 "y" (by decide)⟩

/-- Claim C8: when construction succeeds, each supplied listener (after
the source's array normalization) gets its `store` hook and then its `sb`
hook called exactly once, in listener order; the `sb` hook receives the
transport before polling starts (`started = false`), and the returned
store's transport has been started afterwards. -/
theorem construct_hooks_listeners_in_order (options : Options) (u : String)
    (hv : options.connectionString.isSome ≠ options.serviceBusService.isSome) :
    ∃ sb0 : SBTransport, sb0.started = false ∧
      construct options u = Except.ok
        { store := { nodeId := options.nodeId.getD u,
                     sb := { sb0 with started := true }, subscribers := [] },
          hookTrace := (normalizeListeners options.listeners).flatMap
            (fun l => [HookCall.storeHook l, HookCall.sbHook l sb0]) } := by
  obtain ⟨svc, cs, nid, top, sub, ls⟩ := options
  rcases cs with _ | c
  · rcases svc with _ | s
    · simp at hv
    · exact ⟨{ nodeId := nid.getD u, topic := top, sbSubscription := sub,
               serviceBusService := s, sent := [], started := false,
               stopped := false }, rfl, rfl⟩
  · rcases svc with _ | s
    · exact ⟨{ nodeId := nid.getD u, topic := top, sbSubscription := sub,
               serviceBusService := SBService.fromConnectionString c,
               sent := [], started := false, stopped := false }, rfl, rfl⟩
    · simp at hv

/-- Options with a connection string and an array of two listeners. -/
def listenerOptions : Options :=
  { serviceBusService := none, connectionString := some "cs",
    nodeId := some "node-a", topic := none, sbSubscription := none,
    listeners := ListenersOpt.array [4, 5] }

/-- Witness for C8 at a concrete input: two listeners hooked up in order,
before the transport is started. -/
theorem construct_hooks_listeners_in_order_witness :
    listenerOptions.connectionString.isSome
      ≠ listenerOptions.serviceBusService.isSome ∧
    (∃ sb0 : SBTransport, sb0.started = false ∧
      construct listenerOptions "u" = Except.ok
        { store := { nodeId := listenerOptions.nodeId.getD "u",
                     sb := { sb0 with started := true }, subscribers := [] },
          hookTrace := (normalizeListeners listenerOptions.listeners).flatMap
            (fun l => [HookCall.storeHook l, HookCall.sbHook l sb0]) }) :=
  ⟨by decide, construct_hooks_listeners_in_order listenerOptions "u" (by decide)⟩

/-- Claim C9: after `unsubscribe(name, consumer)`, the registry entry for
`name` exists and is the empty sequence — every previously registered
consumer for `name` is dropped, whatever consumer was passed and whether or
not it was present, and the entry is created empty if `name` was never
subscribed. -/
theorem unsubscribe_clears_entry (s : Store) (name : EventName)
    (c : Consumer) :
    Registry.lookup (s.unsubscribe name c).1.subscribers name = some []
    ∧ (s.unsubscribe name c).2 = [LocalEvent.unsubscribe name c] := by
  refine ⟨?_, rfl⟩
  simp [Store.unsubscribe, filter_unsubscribeKeeps, Registry.lookup_set_self]

/-- Claim C10: a message from a different node whose name has no registry
entry emits the `received` event, invokes no consumer, and returns the
store unchanged (the missing entry is not created). -/
theorem receiveMessage_unknown_name_no_dispatch (s : Store) (src : String)
    (name : EventName) (args : List Arg) (h : src ≠ s.nodeId)
    (hn : Registry.lookup s.subscribers name = none) :
    Store.receiveMessage s src name args
      = (s, [LocalEvent.received src name args], []) := by
  simp [Store.receiveMessage, h, Registry.getOrEmpty, hn]

/-- Witness for C10 at a concrete input: registry has only `"x"`, message
for `"y"` from another node dispatches nothing. -/
theorem receiveMessage_unknown_name_no_dispatch_witness :
    "node-b" ≠ (sampleStore [("x", [5])]).nodeId ∧
    Registry.lookup (sampleStore [("x", [5])]).subscribers "y" = none ∧
    Store.receiveMessage (sampleStore [("x", [5])]) "node-b" "y" [3]
      = (sampleStore [("x", [5])], [LocalEvent.received "node-b" "y" [3]], []) :=
  ⟨by decide, by decide,
   receiveMessage_unknown_name_no_dispatch _ _ _ _ (by decide) (by decide)⟩

end SBStore
